import Mathlib

/-!
Shallow embedding of src/createSummaries.py (Research-Paper-Newsletter).

The effectful parts of the program (filesystem existence checks, PDF
parsing, raw HTTP POSTs via requests, SDK chat-completion calls) are
modelled by a `World` of oracles; Python exceptions that can escape the
inner try/except blocks are modelled with `Except`.  Strings are Lean
strings (Python str slicing is per code point, matching `List Char`).
-/

namespace CreateSummaries

/-- Article record, src/createSummaries.py lines 13-20. -/
structure Article where
  title : String
  pdf_link : String
  abstract_link : String
  article_id : String
  pdf_content : String
  summary : String := ""
  deriving DecidableEq

/-- The environment variables the module reads (lines 40-47); `none`
models an unset variable. -/
structure Env where
  FUELIX_API_URL : Option String := none
  FUELIX_API_KEY : Option String := none
  FUELIX_MODEL : Option String := none
  OLLAMA_API_URL : Option String := none
  OLLAMA_MODEL : Option String := none
  LM_STUDIO_API_URL : Option String := none
  OPENAI_MODEL : Option String := none
  OPENAI_API_KEY : Option String := none
  deriving DecidableEq

/-- Line 40: os.getenv with fallback default. -/
def fuelix_api_url (env : Env) : String := env.FUELIX_API_URL.getD "https://proxy.fuelix.com"

/-- Line 41. -/
def fuelix_api_key (env : Env) : String := env.FUELIX_API_KEY.getD ""

/-- Line 42. -/
def fuelix_model (env : Env) : String := env.FUELIX_MODEL.getD ""

/-- Line 43. -/
def ollama_api_url (env : Env) : String := env.OLLAMA_API_URL.getD "http://localhost:11434/api/chat"

/-- Line 44. -/
def ollama_model (env : Env) : String := env.OLLAMA_MODEL.getD "mistral"

/-- Line 45. -/
def lm_studio_api_url (env : Env) : String := env.LM_STUDIO_API_URL.getD "http://localhost:1234/v1"

/-- Line 46. -/
def openai_model (env : Env) : String := env.OPENAI_MODEL.getD "gpt-4o-mini"

/-- Line 47. -/
def openai_api_key (env : Env) : String := env.OPENAI_API_KEY.getD ""

/-- One chat message of the request payload. -/
structure Message where
  role : String
  content : String
  deriving DecidableEq

/-- The system prompt, lines 50-55 (a triple-quoted Python string whose
continuation lines carry four leading spaces). -/
def system_prompt : String :=
  "You are a research assistant that provides concise summaries of academic papers.\n    Focus on:\n    1. Key findings and contributions\n    2. Methodology and approach\n    3. Main conclusions and implications\n    4. Respond with a basic string, no formatting, titles, heading etc. is required."

/-- 28 spaces: indentation inside the local/ollama user-message f-strings. -/
def sp28 : String := "                            "

/-- 32 spaces: indentation inside the fuelix/openai user-message f-strings. -/
def sp32 : String := "                                "

/-- User message of the local and ollama cases (lines 78-80 and 107-109). -/
def userPrompt28 (title pdf_text : String) : String :=
  "Please summarize this paper:\n" ++ sp28 ++ "Title: " ++ title ++ "\n" ++ sp28 ++ "Content: " ++ pdf_text

/-- User message of the fuelix and default/openai cases (lines 137-139 and 159-161). -/
def userPrompt32 (title pdf_text : String) : String :=
  "Please summarize this paper:\n" ++ sp32 ++ "Title: " ++ title ++ "\n" ++ sp32 ++ "Content: " ++ pdf_text

/-- The observable content of one outbound chat-completion request:
target URL (for SDK calls, the base_url handed to the client), the API
key passed to the client (`none` when the code passes no key or Python
None), the model field, the two messages, and the optional body fields
temperature, max_tokens and stream (`none` = absent from the payload). -/
structure ChatRequest where
  url : String
  api_key : Option String
  model : Option String
  messages : List Message
  temperature : Option ℚ
  max_tokens : Option Nat
  stream : Option Bool
  deriving DecidableEq

/-- Request of the local LM Studio case, lines 74-91. -/
def localRequest (env : Env) (title pdf_text : String) : ChatRequest :=
  { url := lm_studio_api_url env ++ "/chat/completions"
    api_key := none
    model := none
    messages := [⟨"system", system_prompt⟩, ⟨"user", userPrompt28 title pdf_text⟩]
    temperature := some (3 / 10 : ℚ)
    max_tokens := some 1000
    stream := none }

/-- Request of the ollama case, lines 102-120: the body carries model,
messages and stream=False only. -/
def ollamaRequest (env : Env) (title pdf_text : String) : ChatRequest :=
  { url := ollama_api_url env
    api_key := none
    model := some (ollama_model env)
    messages := [⟨"system", system_prompt⟩, ⟨"user", userPrompt28 title pdf_text⟩]
    temperature := none
    max_tokens := none
    stream := some false }

/-- Request of the fuelix case, lines 130-143.  Note line 131: base_url
is the hard-coded literal, not `fuelix_api_url env` (the variable read
on line 40 is never used). -/
def fuelixRequest (env : Env) (title pdf_text : String) : ChatRequest :=
  { url := "https://proxy.fuelix.ai"
    api_key := some (fuelix_api_key env)
    model := some (fuelix_model env)
    messages := [⟨"system", system_prompt⟩, ⟨"user", userPrompt32 title pdf_text⟩]
    temperature := some (3 / 10 : ℚ)
    max_tokens := some 1000
    stream := none }

/-- The OpenAI client on line 153 is built without base_url, so the SDK
default endpoint applies. -/
def openai_sdk_default_base_url : String := "https://api.openai.com/v1"

/-- Request of the default/openai case, lines 153-165.  Line 153 passes
os.getenv with no fallback, hence the raw optional key. -/
def openaiRequest (env : Env) (title pdf_text : String) : ChatRequest :=
  { url := openai_sdk_default_base_url
    api_key := env.OPENAI_API_KEY
    model := some (openai_model env)
    messages := [⟨"system", system_prompt⟩, ⟨"user", userPrompt32 title pdf_text⟩]
    temperature := some (3 / 10 : ℚ)
    max_tokens := some 1000
    stream := none }

/-- Outcome of a raw `requests.post`: a transport failure (any
RequestException raised by post or raise_for_status), or a response with
a 2xx flag and the two body projections the code reads
(choices[0].message.content and message.content; `none` models a
malformed body whose lookup raises KeyError etc.). -/
inductive PostResult where
  | transportError
  | response (ok2xx : Bool) (choicesContent : Option String) (messageContent : Option String)
  deriving DecidableEq

/-- Outcome of an SDK chat.completions.create call: any raised Exception,
or a response whose choices[0].message.content is the given string. -/
inductive SdkResult where
  | error
  | success (content : String)
  deriving DecidableEq

/-- The effectful context: filesystem existence, PDF parsing (an error
models any exception in the reader loop; a page maps to its extracted
text, `none` when extract_text returns None), and the two transports. -/
structure World where
  fileExists : String → Bool
  parsePdf : String → Except Unit (List (Option String))
  post : ChatRequest → PostResult
  sdk : ChatRequest → SdkResult

/-- Python slicing s[:n] on str: the first n code points. -/
def pySlice (s : String) (n : Nat) : String := ⟨s.data.take n⟩

/-- extract_pdf_text, lines 22-34: concatenate per-page text (None pages
contribute ""), truncate to 4000 characters; any exception yields "". -/
def extract_pdf_text (w : World) (pdf_path : String) : String :=
  match w.parsePdf pdf_path with
  | .error _ => ""
  | .ok pages => pySlice (String.join (pages.map (fun p => p.getD ""))) 4000

/-- The local case body, lines 86-97: transport error or non-2xx is
caught and gives "", a successful response yields the choices content,
whose absence (KeyError) escapes the inner except clause. -/
def localCall (w : World) (req : ChatRequest) : Except Unit String :=
  match w.post req with
  | .transportError => .ok ""
  | .response ok2xx choicesContent _ =>
    if ok2xx then
      match choicesContent with
      | some c => .ok c
      | none => .error ()
    else .ok ""

/-- The ollama case body, lines 114-126: same shape but the summary is
read from message.content. -/
def ollamaCall (w : World) (req : ChatRequest) : Except Unit String :=
  match w.post req with
  | .transportError => .ok ""
  | .response ok2xx _ messageContent =>
    if ok2xx then
      match messageContent with
      | some c => .ok c
      | none => .error ()
    else .ok ""

/-- The fuelix/openai case bodies (lines 132-148 and 154-170): every
Exception is caught and gives "". -/
def sdkCall (w : World) (req : ChatRequest) : Except Unit String :=
  match w.sdk req with
  | .error => .ok ""
  | .success c => .ok c

/-- The request built by the `match llm` dispatch, lines 71-170.  The
Python string match is sequential equality testing with a wildcard
default arm. -/
def dispatchRequest (env : Env) (llm title pdf_text : String) : ChatRequest :=
  if llm = "local" then localRequest env title pdf_text
  else if llm = "ollama" then ollamaRequest env title pdf_text
  else if llm = "fuelix" then fuelixRequest env title pdf_text
  else openaiRequest env title pdf_text

/-- The full `match llm` dispatch, lines 71-170: build the request for
the matching arm and run its transport.  `.ok s` means the arm finished
with article.summary = s; `.error` means an exception escaped the arm. -/
def summarize (w : World) (env : Env) (llm title pdf_text : String) : Except Unit String :=
  if llm = "local" then localCall w (localRequest env title pdf_text)
  else if llm = "ollama" then ollamaCall w (ollamaRequest env title pdf_text)
  else if llm = "fuelix" then sdkCall w (fuelixRequest env title pdf_text)
  else sdkCall w (openaiRequest env title pdf_text)

/-- The body of the per-article try block, lines 58-171: skip (continue,
article untouched) when the path does not exist or the extracted text is
empty, otherwise dispatch; `.error` is an exception reaching the
per-article except clause. -/
def tryArticle (w : World) (env : Env) (llm : String) (a : Article) : Except Unit Article :=
  if w.fileExists a.pdf_content = false then .ok a
  else
    let pdf_text := extract_pdf_text w a.pdf_content
    if pdf_text = "" then .ok a
    else
      match summarize w env llm a.title pdf_text with
      | .ok s => .ok { a with summary := s }
      | .error e => .error e

/-- One iteration of the article loop including the except clause on
lines 172-174, which forces summary to "". -/
def processArticle (w : World) (env : Env) (llm : String) (a : Article) : Article :=
  match tryArticle w env llm a with
  | .ok a2 => a2
  | .error _ => { a with summary := "" }

/-- create_summaries, lines 36-176: process each article in order and
return the (mutated) list. -/
def create_summaries (w : World) (env : Env) (llm : String) (articles : List Article) : List Article :=
  articles.map (processArticle w env llm)

/-! Concrete fixtures used by witnesses and counterexamples. -/

/-- Environment with every variable unset. -/
def defaultEnv : Env := {}

/-- A fresh article with the default empty summary. -/
def freshArticle : Article :=
  { title := "T", pdf_link := "pl", abstract_link := "al", article_id := "id0",
    pdf_content := "/papers/t.pdf", summary := "" }

/-- An article entering the batch with a non-empty summary. -/
def staleA : Article :=
  { title := "A", pdf_link := "pl", abstract_link := "al", article_id := "id1",
    pdf_content := "/missing.pdf", summary := "stale" }

/-- A second article entering the batch with a non-empty summary. -/
def staleB : Article :=
  { title := "B", pdf_link := "pl", abstract_link := "al", article_id := "id2",
    pdf_content := "/empty.pdf", summary := "old" }

/-- World where the PDF exists, parses to one page, and both transports
succeed. -/
def wOk : World :=
  { fileExists := fun _ => true
    parsePdf := fun _ => .ok [some "hello", none, some " world"]
    post := fun _ => .response true (some "SUM") (some "MSUM")
    sdk := fun _ => .success "SDKSUM" }

/-- World where the backend answers 2xx but with a malformed body, so the
field lookups raise. -/
def wErr : World :=
  { fileExists := fun _ => true
    parsePdf := fun _ => .ok [some "body"]
    post := fun _ => .response true none none
    sdk := fun _ => .error }

/-- World where every backend call fails in transit. -/
def wFail : World :=
  { fileExists := fun _ => true
    parsePdf := fun _ => .ok [some "body"]
    post := fun _ => .transportError
    sdk := fun _ => .error }

/-- World where every backend call yields a non-2xx response. -/
def wBadStatus : World :=
  { fileExists := fun _ => true
    parsePdf := fun _ => .ok [some "body"]
    post := fun _ => .response false (some "IGNORED") (some "IGNORED")
    sdk := fun _ => .error }

/-- World where no file exists; any backend that were called could only
ever produce the string "PRODUCED". -/
def wNoFile : World :=
  { fileExists := fun _ => false
    parsePdf := fun _ => .error ()
    post := fun _ => .response true (some "PRODUCED") (some "PRODUCED")
    sdk := fun _ => .success "PRODUCED" }

/-- World where files exist but the PDF has a single page with no
extractable text, so extraction yields "". -/
def wEmptyText : World :=
  { fileExists := fun _ => true
    parsePdf := fun _ => .ok [none]
    post := fun _ => .response true (some "PRODUCED") (some "PRODUCED")
    sdk := fun _ => .success "PRODUCED" }

/-- Environment overriding the fuelix base URL. -/
def envFuelixOverride : Env := { defaultEnv with FUELIX_API_URL := some "https://example.com" }

/-- A string the world can hand back as response content: either as the
choices content or message content of some 2xx-or-not HTTP response, or
as the content of some successful SDK call. -/
def backendProduced (w : World) (s : String) : Prop :=
  (∃ r b m, w.post r = PostResult.response b (some s) m) ∨
  (∃ r b c, w.post r = PostResult.response b c (some s)) ∨
  (∃ r, w.sdk r = SdkResult.success s)

/-! Helper lemmas shared across the claim theorems. -/

/-- The dispatch arm selected for "local". -/
theorem summarize_local_eq (w : World) (env : Env) (title pdf_text : String) :
    summarize w env "local" title pdf_text = localCall w (localRequest env title pdf_text) := rfl

/-- The dispatch arm selected for "ollama". -/
theorem summarize_ollama_eq (w : World) (env : Env) (title pdf_text : String) :
    summarize w env "ollama" title pdf_text = ollamaCall w (ollamaRequest env title pdf_text) := rfl

/-- The dispatch arm selected for "fuelix". -/
theorem summarize_fuelix_eq (w : World) (env : Env) (title pdf_text : String) :
    summarize w env "fuelix" title pdf_text = sdkCall w (fuelixRequest env title pdf_text) := rfl

/-- Every identifier other than the three named ones selects the
default/openai arm. -/
theorem summarize_default (w : World) (env : Env) (title pdf_text llm : String)
    (h1 : llm ≠ "local") (h2 : llm ≠ "ollama") (h3 : llm ≠ "fuelix") :
    summarize w env llm title pdf_text = sdkCall w (openaiRequest env title pdf_text) := by
  unfold summarize
  rw [if_neg h1, if_neg h2, if_neg h3]

/-- Any normal exit of the per-article try block returns the article
unchanged or changed only in its summary field. -/
theorem tryArticle_ok_shape (w : World) (env : Env) (llm : String) (a a2 : Article)
    (h : tryArticle w env llm a = Except.ok a2) :
    a2 = a ∨ ∃ s, a2 = { a with summary := s } := by
  unfold tryArticle at h
  split at h
  · injection h with h2
    exact Or.inl h2.symm
  · dsimp only at h
    split at h
    · injection h with h2
      exact Or.inl h2.symm
    · split at h
      · injection h with h2
        exact Or.inr ⟨_, h2.symm⟩
      · exact Except.noConfusion h

/-- One loop iteration returns the article unchanged or changed only in
its summary field. -/
theorem processArticle_shape (w : World) (env : Env) (llm : String) (a : Article) :
    processArticle w env llm a = a ∨ ∃ s, processArticle w env llm a = { a with summary := s } := by
  unfold processArticle
  cases h : tryArticle w env llm a with
  | ok a2 =>
    simpa using tryArticle_ok_shape w env llm a a2 h
  | error e =>
    exact Or.inr ⟨"", rfl⟩

/-- When the PDF exists and extraction is non-empty, one loop iteration
is the dispatch result with the article-boundary except clause around it. -/
theorem processArticle_run (w : World) (env : Env) (llm : String) (a : Article)
    (hfile : w.fileExists a.pdf_content = true)
    (htext : extract_pdf_text w a.pdf_content ≠ "") :
    processArticle w env llm a =
      match summarize w env llm a.title (extract_pdf_text w a.pdf_content) with
      | .ok s => { a with summary := s }
      | .error _ => { a with summary := "" } := by
  unfold processArticle tryArticle
  rw [hfile]
  simp only [Bool.true_eq_false, if_false]
  rw [if_neg htext]
  cases hs : summarize w env llm a.title (extract_pdf_text w a.pdf_content) with
  | ok s => simp
  | error e => simp

/-- When the PDF is missing or extraction is empty, the iteration skips
the article entirely, whatever any backend oracle would answer. -/
theorem processArticle_skip (w : World) (env : Env) (llm : String) (a : Article)
    (h : w.fileExists a.pdf_content = false ∨ extract_pdf_text w a.pdf_content = "") :
    processArticle w env llm a = a := by
  unfold processArticle tryArticle
  rcases h with h | h
  · rw [h]
    simp
  · rw [h]
    by_cases hf : w.fileExists a.pdf_content = false <;> simp [hf]

/-- Every dispatch outcome is an escaping exception, the empty string
set by an inner except clause, or content the world actually produced. -/
theorem summarize_result (w : World) (env : Env) (llm title pdf_text : String) :
    summarize w env llm title pdf_text = Except.error () ∨
    summarize w env llm title pdf_text = Except.ok "" ∨
    ∃ c, summarize w env llm title pdf_text = Except.ok c ∧ backendProduced w c := by
  by_cases h1 : llm = "local"
  · subst h1
    rw [summarize_local_eq]
    unfold localCall
    cases hp : w.post (localRequest env title pdf_text) with
    | transportError => exact Or.inr (Or.inl rfl)
    | response ok2xx cc mc =>
      cases ok2xx with
      | false => exact Or.inr (Or.inl rfl)
      | true =>
        cases cc with
        | none => exact Or.inl rfl
        | some c => exact Or.inr (Or.inr ⟨c, rfl, Or.inl ⟨_, _, _, hp⟩⟩)
  · by_cases h2 : llm = "ollama"
    · subst h2
      rw [summarize_ollama_eq]
      unfold ollamaCall
      cases hp : w.post (ollamaRequest env title pdf_text) with
      | transportError => exact Or.inr (Or.inl rfl)
      | response ok2xx cc mc =>
        cases ok2xx with
        | false => exact Or.inr (Or.inl rfl)
        | true =>
          cases mc with
          | none => exact Or.inl rfl
          | some c => exact Or.inr (Or.inr ⟨c, rfl, Or.inr (Or.inl ⟨_, _, _, hp⟩)⟩)
    · by_cases h3 : llm = "fuelix"
      · subst h3
        rw [summarize_fuelix_eq]
        unfold sdkCall
        cases hs : w.sdk (fuelixRequest env title pdf_text) with
        | error => exact Or.inr (Or.inl rfl)
        | success c => exact Or.inr (Or.inr ⟨c, rfl, Or.inr (Or.inr ⟨_, hs⟩)⟩)
      · rw [summarize_default w env title pdf_text llm h1 h2 h3]
        unfold sdkCall
        cases hs : w.sdk (openaiRequest env title pdf_text) with
        | error => exact Or.inr (Or.inl rfl)
        | success c => exact Or.inr (Or.inr ⟨c, rfl, Or.inr (Or.inr ⟨_, hs⟩)⟩)

/-! Claim theorems. -/

/-- C1: create_summaries is total over the batch: each output position
is the per-article processing of the input at that position alone (so no
article aborts any other), and an exception escaping the per-article
work is caught at the article boundary, forcing that summary to "". -/
theorem create_summaries_isolates_failures (w : World) (env : Env) (llm : String)
    (articles : List Article) :
    (create_summaries w env llm articles).length = articles.length ∧
    (∀ (i : Nat) (a : Article), articles[i]? = some a →
      (create_summaries w env llm articles)[i]? = some (processArticle w env llm a)) ∧
    (∀ a e, tryArticle w env llm a = Except.error e →
      processArticle w env llm a = { a with summary := "" }) := by
  refine ⟨by simp [create_summaries], ?_, ?_⟩
  · intro i a h
    simp [create_summaries, List.getElem?_map, h]
  · intro a e h
    simp [processArticle, h]

/-- C1 witness: a malformed 2xx body makes the local arm raise past its
inner except clause; the batch still yields that article with summary "". -/
theorem create_summaries_isolates_failures_witness :
    (create_summaries wErr defaultEnv "local" [freshArticle])[0]? =
      some (processArticle wErr defaultEnv "local" freshArticle) ∧
    processArticle wErr defaultEnv "local" freshArticle = { freshArticle with summary := "" } :=
  ⟨(create_summaries_isolates_failures wErr defaultEnv "local" [freshArticle]).2.1 0
      freshArticle rfl,
   (create_summaries_isolates_failures wErr defaultEnv "local" [freshArticle]).2.2
      freshArticle () rfl⟩

/-- C2 counterexample: article staleA enters with summary "stale" and a
missing PDF; in a world whose backends can only ever produce the string
"PRODUCED", the batch returns summary "stale" — non-empty and not
backend-produced, so a stale summary is retained. -/
theorem missing_pdf_keeps_stale_summary :
    (create_summaries wNoFile defaultEnv "openai" [staleA]).map Article.summary = ["stale"] ∧
    ("stale" : String) ≠ "" ∧
    ¬ backendProduced wNoFile "stale" := by
  refine ⟨rfl, by decide, ?_⟩
  rintro (⟨r, b, m, h⟩ | ⟨r, b, c, h⟩ | ⟨r, h⟩)
  · injection h with hb hc hm
    injection hc with hc2
    exact absurd hc2 (by decide)
  · injection h with hb hc hm
    injection hm with hm2
    exact absurd hm2 (by decide)
  · injection h with hc
    exact absurd hc (by decide)

/-- C2 amended: after processing, each article is unchanged (skipped:
missing PDF or empty extraction), or its summary is "" or a string the
backend world produced; an article entering with the default empty
summary therefore never ends with a stale non-empty summary. -/
theorem summary_invariant_amended (w : World) (env : Env) (llm : String) (a : Article) :
    processArticle w env llm a = a ∨
    (processArticle w env llm a).summary = "" ∨
    backendProduced w (processArticle w env llm a).summary := by
  by_cases hf : w.fileExists a.pdf_content = false
  · exact Or.inl (processArticle_skip w env llm a (Or.inl hf))
  · by_cases ht : extract_pdf_text w a.pdf_content = ""
    · exact Or.inl (processArticle_skip w env llm a (Or.inr ht))
    · have hfile : w.fileExists a.pdf_content = true := by
        cases hb : w.fileExists a.pdf_content
        · exact absurd hb hf
        · rfl
      rw [processArticle_run w env llm a hfile ht]
      rcases summarize_result w env llm a.title (extract_pdf_text w a.pdf_content)
        with h | h | ⟨c, h, hb⟩ <;> rw [h]
      · exact Or.inr (Or.inl rfl)
      · exact Or.inr (Or.inl rfl)
      · exact Or.inr (Or.inr hb)

/-- C3 counterexample: article staleB enters with summary "old"; its
file exists but extraction yields the empty string, and after the batch
the summary is still "old", not the empty string the claim demands. -/
theorem empty_extraction_keeps_stale_summary :
    wEmptyText.fileExists staleB.pdf_content = true ∧
    extract_pdf_text wEmptyText staleB.pdf_content = "" ∧
    (create_summaries wEmptyText defaultEnv "openai" [staleB]).map Article.summary = ["old"] ∧
    ("old" : String) ≠ "" := by
  exact ⟨rfl, rfl, rfl, by decide⟩

/-- C3 amended: when the PDF path does not exist or the extracted text
is empty, the article is skipped entirely — it is returned unchanged
(its summary keeps its incoming value, hence "" whenever it entered
empty), and the result is the same for every backend oracle, so no
backend call is attempted. -/
theorem skip_makes_no_backend_call (w : World) (env : Env) (llm : String) (a : Article)
    (h : w.fileExists a.pdf_content = false ∨ extract_pdf_text w a.pdf_content = "") :
    processArticle w env llm a = a ∧
    ∀ p s, processArticle { w with post := p, sdk := s } env llm a = a := by
  refine ⟨processArticle_skip w env llm a h, ?_⟩
  intro p s
  exact processArticle_skip _ env llm a h

/-- C3 amended witness: a fresh article (empty incoming summary) with a
missing PDF stays untouched whatever the backends would answer. -/
theorem skip_makes_no_backend_call_witness :
    processArticle wNoFile defaultEnv "openai" staleA = staleA ∧
    processArticle { wNoFile with
        post := fun _ => PostResult.transportError
        sdk := fun _ => SdkResult.error } defaultEnv "openai" staleA = staleA := by
  obtain ⟨h1, h2⟩ := skip_makes_no_backend_call wNoFile defaultEnv "openai" staleA (Or.inl rfl)
  exact ⟨h1, h2 _ _⟩

/-- C4: extract_pdf_text yields at most 4000 characters, returns "" on
any parse error, and on success returns exactly the first 4000
characters of the page-ordered concatenation in which a page with no
extractable text contributes "". -/
theorem extract_pdf_text_spec (w : World) (path : String) :
    (extract_pdf_text w path).length ≤ 4000 ∧
    (∀ e, w.parsePdf path = .error e → extract_pdf_text w path = "") ∧
    (∀ pages, w.parsePdf path = .ok pages →
      (extract_pdf_text w path).data =
        (String.join (pages.map (fun p => p.getD ""))).data.take 4000) := by
  refine ⟨?_, ?_, ?_⟩
  · unfold extract_pdf_text
    cases h : w.parsePdf path with
    | error e => simp
    | ok pages =>
      show (pySlice (String.join (pages.map (fun p => p.getD ""))) 4000).length ≤ 4000
      unfold pySlice
      simp [String.length]
  · intro e h
    unfold extract_pdf_text
    rw [h]
  · intro pages h
    unfold extract_pdf_text
    rw [h]
    rfl

/-- C4 witness: a parse failure yields "", and a three-page document
(middle page without text) yields the truncated concatenation. -/
theorem extract_pdf_text_spec_witness :
    extract_pdf_text wNoFile "/missing.pdf" = "" ∧
    (extract_pdf_text wOk "p").data =
      (String.join ([some "hello", none, some " world"].map (fun p => p.getD ""))).data.take 4000 :=
  ⟨(extract_pdf_text_spec wNoFile "/missing.pdf").2.1 () rfl,
   (extract_pdf_text_spec wOk "p").2.2 [some "hello", none, some " world"] rfl⟩

/-- C5 counterexample: the ollama request body carries neither a
temperature field nor a max_tokens field (it carries model, messages and
stream=false only), refuting the claim that every HTTP-call variant
fixes temperature 0.3 and max output 1000 — at the concrete input of the
default environment, title "T", text "TEXT". -/
theorem ollama_request_has_no_sampling_params :
    (ollamaRequest defaultEnv "T" "TEXT").temperature = none ∧
    (ollamaRequest defaultEnv "T" "TEXT").max_tokens = none ∧
    (ollamaRequest defaultEnv "T" "TEXT").stream = some false :=
  ⟨rfl, rfl, rfl⟩

/-- C5 amended: the local, fuelix and default/openai requests all fix
temperature at 0.3 and max_tokens at 1000, while the ollama request
omits both and instead fixes stream=false. -/
theorem sampling_params_amended (env : Env) (title pdf_text : String) :
    (localRequest env title pdf_text).temperature = some (3 / 10 : ℚ) ∧
    (localRequest env title pdf_text).max_tokens = some 1000 ∧
    (fuelixRequest env title pdf_text).temperature = some (3 / 10 : ℚ) ∧
    (fuelixRequest env title pdf_text).max_tokens = some 1000 ∧
    (openaiRequest env title pdf_text).temperature = some (3 / 10 : ℚ) ∧
    (openaiRequest env title pdf_text).max_tokens = some 1000 ∧
    (ollamaRequest env title pdf_text).temperature = none ∧
    (ollamaRequest env title pdf_text).max_tokens = none ∧
    (ollamaRequest env title pdf_text).stream = some false :=
  ⟨rfl, rfl, rfl, rfl, rfl, rfl, rfl, rfl, rfl⟩

/-- C7: when the selected backend answers successfully, the stored
summary is exactly the content field of the response — choices content
for the local arm, message content for ollama, SDK response content for
fuelix and the default/openai arm — with no transformation applied. -/
theorem summary_equals_response_content (w : World) (env : Env) (a : Article) (c : String)
    (hfile : w.fileExists a.pdf_content = true)
    (htext : extract_pdf_text w a.pdf_content ≠ "") :
    (∀ m, w.post (localRequest env a.title (extract_pdf_text w a.pdf_content)) =
        PostResult.response true (some c) m →
      (processArticle w env "local" a).summary = c) ∧
    (∀ cc, w.post (ollamaRequest env a.title (extract_pdf_text w a.pdf_content)) =
        PostResult.response true cc (some c) →
      (processArticle w env "ollama" a).summary = c) ∧
    (w.sdk (fuelixRequest env a.title (extract_pdf_text w a.pdf_content)) = SdkResult.success c →
      (processArticle w env "fuelix" a).summary = c) ∧
    (∀ llm, llm ≠ "local" → llm ≠ "ollama" → llm ≠ "fuelix" →
      w.sdk (openaiRequest env a.title (extract_pdf_text w a.pdf_content)) = SdkResult.success c →
      (processArticle w env llm a).summary = c) := by
  refine ⟨?_, ?_, ?_, ?_⟩
  · intro m h
    rw [processArticle_run w env "local" a hfile htext, summarize_local_eq]
    unfold localCall
    rw [h]
    rfl
  · intro cc h
    rw [processArticle_run w env "ollama" a hfile htext, summarize_ollama_eq]
    unfold ollamaCall
    rw [h]
    rfl
  · intro h
    rw [processArticle_run w env "fuelix" a hfile htext, summarize_fuelix_eq]
    unfold sdkCall
    rw [h]
  · intro llm h1 h2 h3 h
    rw [processArticle_run w env llm a hfile htext,
      summarize_default w env a.title (extract_pdf_text w a.pdf_content) llm h1 h2 h3]
    unfold sdkCall
    rw [h]

/-- C7 witness: in a world answering "SUM"/"MSUM"/"SDKSUM", each arm
stores exactly that content. -/
theorem summary_equals_response_content_witness :
    (processArticle wOk defaultEnv "local" freshArticle).summary = "SUM" ∧
    (processArticle wOk defaultEnv "ollama" freshArticle).summary = "MSUM" ∧
    (processArticle wOk defaultEnv "fuelix" freshArticle).summary = "SDKSUM" ∧
    (processArticle wOk defaultEnv "claude" freshArticle).summary = "SDKSUM" := by
  have h1 := summary_equals_response_content wOk defaultEnv freshArticle "SUM" rfl (by decide)
  have h2 := summary_equals_response_content wOk defaultEnv freshArticle "MSUM" rfl (by decide)
  have h3 := summary_equals_response_content wOk defaultEnv freshArticle "SDKSUM" rfl (by decide)
  exact ⟨h1.1 (some "MSUM") rfl, h2.2.1 (some "SUM") rfl, h3.2.2.1 rfl,
    h3.2.2.2 "claude" (by decide) (by decide) (by decide) rfl⟩

/-- C8: a transport error or a non-2xx response on the raw HTTP arms,
and a raised SDK call on the fuelix and default/openai arms, each leave
the article with summary "", and the batch always keeps its length. -/
theorem backend_failure_gives_empty_summary (w : World) (env : Env) (a : Article)
    (hfile : w.fileExists a.pdf_content = true)
    (htext : extract_pdf_text w a.pdf_content ≠ "") :
    (w.post (localRequest env a.title (extract_pdf_text w a.pdf_content)) =
        PostResult.transportError →
      (processArticle w env "local" a).summary = "") ∧
    (∀ cc mc, w.post (localRequest env a.title (extract_pdf_text w a.pdf_content)) =
        PostResult.response false cc mc →
      (processArticle w env "local" a).summary = "") ∧
    (w.post (ollamaRequest env a.title (extract_pdf_text w a.pdf_content)) =
        PostResult.transportError →
      (processArticle w env "ollama" a).summary = "") ∧
    (∀ cc mc, w.post (ollamaRequest env a.title (extract_pdf_text w a.pdf_content)) =
        PostResult.response false cc mc →
      (processArticle w env "ollama" a).summary = "") ∧
    (w.sdk (fuelixRequest env a.title (extract_pdf_text w a.pdf_content)) = SdkResult.error →
      (processArticle w env "fuelix" a).summary = "") ∧
    (∀ llm, llm ≠ "local" → llm ≠ "ollama" → llm ≠ "fuelix" →
      w.sdk (openaiRequest env a.title (extract_pdf_text w a.pdf_content)) = SdkResult.error →
      (processArticle w env llm a).summary = "") ∧
    (∀ (llm2 : String) (articles : List Article),
      (create_summaries w env llm2 articles).length = articles.length) := by
  refine ⟨?_, ?_, ?_, ?_, ?_, ?_, ?_⟩
  · intro h
    rw [processArticle_run w env "local" a hfile htext, summarize_local_eq]
    unfold localCall
    rw [h]
  · intro cc mc h
    rw [processArticle_run w env "local" a hfile htext, summarize_local_eq]
    unfold localCall
    rw [h]
    rfl
  · intro h
    rw [processArticle_run w env "ollama" a hfile htext, summarize_ollama_eq]
    unfold ollamaCall
    rw [h]
  · intro cc mc h
    rw [processArticle_run w env "ollama" a hfile htext, summarize_ollama_eq]
    unfold ollamaCall
    rw [h]
    rfl
  · intro h
    rw [processArticle_run w env "fuelix" a hfile htext, summarize_fuelix_eq]
    unfold sdkCall
    rw [h]
  · intro llm h1 h2 h3 h
    rw [processArticle_run w env llm a hfile htext,
      summarize_default w env a.title (extract_pdf_text w a.pdf_content) llm h1 h2 h3]
    unfold sdkCall
    rw [h]
  · intro llm2 articles
    simp [create_summaries]

/-- C8 witness: transport failures and 400-status responses both yield
summary "" on every arm, and a two-article batch keeps length 2. -/
theorem backend_failure_gives_empty_summary_witness :
    (processArticle wFail defaultEnv "local" freshArticle).summary = "" ∧
    (processArticle wBadStatus defaultEnv "local" freshArticle).summary = "" ∧
    (processArticle wFail defaultEnv "ollama" freshArticle).summary = "" ∧
    (processArticle wBadStatus defaultEnv "ollama" freshArticle).summary = "" ∧
    (processArticle wFail defaultEnv "fuelix" freshArticle).summary = "" ∧
    (processArticle wFail defaultEnv "claude" freshArticle).summary = "" ∧
    (create_summaries wFail defaultEnv "ollama" [freshArticle, staleA]).length = 2 := by
  have hf := backend_failure_gives_empty_summary wFail defaultEnv freshArticle rfl (by decide)
  have hb := backend_failure_gives_empty_summary wBadStatus defaultEnv freshArticle rfl (by decide)
  exact ⟨hf.1 rfl, hb.2.1 (some "IGNORED") (some "IGNORED") rfl, hf.2.2.1 rfl,
    hb.2.2.2.1 (some "IGNORED") (some "IGNORED") rfl, hf.2.2.2.2.1 rfl,
    hf.2.2.2.2.2.1 "claude" (by decide) (by decide) (by decide) rfl,
    hf.2.2.2.2.2.2 "ollama" [freshArticle, staleA]⟩

/-- C6: any backend identifier other than local, ollama and fuelix
builds exactly the request of the default/openai arm and behaves exactly
like it. -/
theorem unrecognized_backend_is_openai (w : World) (env : Env) (title pdf_text llm : String)
    (h1 : llm ≠ "local") (h2 : llm ≠ "ollama") (h3 : llm ≠ "fuelix") :
    dispatchRequest env llm title pdf_text = dispatchRequest env "openai" title pdf_text ∧
    summarize w env llm title pdf_text = summarize w env "openai" title pdf_text := by
  constructor
  · unfold dispatchRequest
    rw [if_neg h1, if_neg h2, if_neg h3]
    rfl
  · unfold summarize
    rw [if_neg h1, if_neg h2, if_neg h3]
    rfl

/-- C6 witness at the concrete unrecognized identifier "claude". -/
theorem unrecognized_backend_is_openai_witness :
    dispatchRequest defaultEnv "claude" "T" "X" = dispatchRequest defaultEnv "openai" "T" "X" ∧
    summarize wOk defaultEnv "claude" "T" "X" = summarize wOk defaultEnv "openai" "T" "X" :=
  unrecognized_backend_is_openai wOk defaultEnv "T" "X" "claude"
    (by decide) (by decide) (by decide)

/-- C9: with FUELIX_API_URL set to https://example.com, the configured
fuelix base URL is https://example.com, yet the request the fuelix arm
builds goes to the hard-coded https://proxy.fuelix.ai — the configuration
value read on line 40 is never used by the call on line 131. -/
theorem fuelix_base_url_ignores_config :
    fuelix_api_url envFuelixOverride = "https://example.com" ∧
    (fuelixRequest envFuelixOverride "T" "TEXT").url = "https://proxy.fuelix.ai" ∧
    (fuelixRequest envFuelixOverride "T" "TEXT").url ≠ fuelix_api_url envFuelixOverride :=
  ⟨rfl, rfl, by decide⟩

/-- C10: the batch output has the same length and order as the input,
and each output article agrees with its input article on every field
except summary. -/
theorem create_summaries_mutates_only_summary (w : World) (env : Env) (llm : String)
    (articles : List Article) :
    (create_summaries w env llm articles).length = articles.length ∧
    (∀ (i : Nat) (a : Article), articles[i]? = some a →
      ∃ a2, (create_summaries w env llm articles)[i]? = some a2 ∧
        a2.title = a.title ∧ a2.pdf_link = a.pdf_link ∧ a2.abstract_link = a.abstract_link ∧
        a2.article_id = a.article_id ∧ a2.pdf_content = a.pdf_content) := by
  refine ⟨by simp [create_summaries], ?_⟩
  intro i a h
  refine ⟨processArticle w env llm a, by simp [create_summaries, List.getElem?_map, h], ?_⟩
  rcases processArticle_shape w env llm a with hs | ⟨s, hs⟩ <;> rw [hs] <;>
    exact ⟨rfl, rfl, rfl, rfl, rfl⟩

/-- C10 witness: position 0 of a concrete batch keeps every non-summary
field of the input article. -/
theorem create_summaries_mutates_only_summary_witness :
    ((create_summaries wOk defaultEnv "ollama" [freshArticle])[0]?.map Article.title)
        = some "T" ∧
    ((create_summaries wOk defaultEnv "ollama" [freshArticle])[0]?.map Article.pdf_content)
        = some "/papers/t.pdf" := by
  obtain ⟨a2, h1, h2, h3, h4, h5, h6⟩ :=
    (create_summaries_mutates_only_summary wOk defaultEnv "ollama" [freshArticle]).2 0
      freshArticle rfl
  rw [h1]
  refine ⟨?_, ?_⟩
  · rw [Option.map_some', h2]
    rfl
  · rw [Option.map_some', h6]
    rfl

end CreateSummaries
